import Mathlib

/-!
Shallow embedding of the frame-acquisition and buffering subsystem of
`src/gstvmbsrc.c` (the `vmbsrc` GStreamer element for VimbaX cameras), and
proofs about the claims of its specification.

External VimbaX SDK calls (`VmbCaptureStart`, `VmbFeatureEnumSet`, ...) are
modelled by environments that supply each call's result; every model function
additionally returns the ordered list of device operations it issued, so that
ordering and counting properties can be stated about real call traces.
-/

namespace GstVmbSrc

/-- Result codes of VimbaX API calls (`VmbError_t`).  The source only
distinguishes `VmbErrorSuccess`, `VmbErrorResources` and "some other error",
so the embedding does the same, keeping other codes abstract. -/
inductive VmbError where
  | Success
  | Resources
  | Other (code : Nat)
deriving DecidableEq, Repr

/-- Frame receive status (`VmbFrameStatus`).  `gst_vmbsrc_create` only tests
for `VmbFrameStatusIncomplete`; all other statuses take the `else` branch. -/
inductive FrameStatus where
  | Complete
  | Incomplete
  | TooSmall
  | Invalid
deriving DecidableEq, Repr

/-- The `incompleteframehandling` element property
(`GST_VMBSRC_INCOMPLETE_FRAME_HANDLING_*`). -/
inductive IncompleteFrameHandling where
  | Drop
  | Submit
deriving DecidableEq, Repr

/-- The `allocationmode` element property (`GST_VMBSRC_ALLOCATION_MODE_*`). -/
inductive AllocationMode where
  | AnnounceFrame
  | AllocAndAnnounceFrame
deriving DecidableEq, Repr

/-- A device operation issued by the element, in program order.  Only the
calls the claims talk about are recorded. -/
inductive DevOp where
  | captureStart
  | frameQueue (i : Nat)
  | commandRun (feature : String)
  | commandIsDone (feature : String)
  | captureEnd
  | captureQueueFlush
  | payloadSizeGet
  | frameAnnounce (i : Nat)
  | frameRevoke (i : Nat)
  | freeBuf (i : Nat)
  | enumSet (feature value : String)
  | intSet (feature : String) (value : Int)
deriving DecidableEq, Repr

/-! ## The frame dispatcher: `gst_vmbsrc_create` (lines 1284-1391)

The wait loop pops the filled-frame queue with a 10 µs timeout and then reads
the element state; the loop body is identical on every iteration, so the two
nested `do`/`while` loops flatten into one recursion over the schedule of
iteration inputs. -/

/-- A frame as seen by `gst_vmbsrc_create`: the fields of `VmbFrame_t` the
function reads (`receiveStatus`, `frameID`, `bufferSize`). -/
structure VmbFrameC where
  frameID : Nat
  receiveStatus : FrameStatus
  bufferSize : Nat
deriving DecidableEq, Repr

/-- Input of one wait-loop iteration: what `g_async_queue_timeout_pop`
returned (`none` = timeout) and whether `gst_element_get_state` reported
`GST_STATE_PLAYING`. -/
structure WaitEvent where
  popped : Option VmbFrameC
  playing : Bool
deriving DecidableEq, Repr

/-- Result of a `gst_vmbsrc_create` call. -/
inductive CreateResult where
  | flowOk (f : VmbFrameC)
  | flushing
  | pending
deriving DecidableEq, Repr

/-- Observable outcome of `gst_vmbsrc_create`: the flow result, the frames
removed from the filled-frame queue (in order), the frames passed to
`VmbCaptureFrameQueue` (in order), and the number of wait-loop iterations
executed.  `pending` marks an exhausted schedule: the real loop would simply
keep waiting. -/
structure CreateOutcome where
  result : CreateResult
  consumed : List VmbFrameC
  requeued : List VmbFrameC
  iterations : Nat
deriving DecidableEq, Repr

/-- `gst_vmbsrc_create` (lines 1290-1390).  Per iteration: pop with timeout,
read the element state, return `GST_FLOW_FLUSHING` if it is not
`GST_STATE_PLAYING`, otherwise dispatch on the popped frame's receive status.
An incomplete frame under `Drop` is requeued and the loop restarts; an
incomplete frame under `Submit`, or any other frame, is emitted and its
buffer requeued (line 1363) after the payload copy. -/
def gst_vmbsrc_create (policy : IncompleteFrameHandling) :
    List WaitEvent → CreateOutcome
  | [] => ⟨.pending, [], [], 0⟩
  | e :: rest =>
    if e.playing = false then
      ⟨.flushing, e.popped.toList, [], 1⟩
    else
      match e.popped with
      | none =>
        let o := gst_vmbsrc_create policy rest
        ⟨o.result, o.consumed, o.requeued, o.iterations + 1⟩
      | some frame =>
        if frame.receiveStatus = .Incomplete then
          if policy = .Submit then
            ⟨.flowOk frame, [frame], [frame], 1⟩
          else
            let o := gst_vmbsrc_create policy rest
            ⟨o.result, frame :: o.consumed, frame :: o.requeued, o.iterations + 1⟩
        else
          ⟨.flowOk frame, [frame], [frame], 1⟩

/-! Concrete frames and schedules used by counterexamples and witnesses. -/

/-- An incomplete frame, used to exercise the `Drop` branch. -/
def incFrameA : VmbFrameC := ⟨7, .Incomplete, 64⟩

/-- A complete frame, emitted by the dispatcher. -/
def cmpFrameA : VmbFrameC := ⟨8, .Complete, 64⟩

/-- A schedule that pops an incomplete frame and then a complete one, with the
element playing throughout. -/
def eventsA : List WaitEvent := [⟨some incFrameA, true⟩, ⟨some cmpFrameA, true⟩]

/-- An incomplete frame popped in the very iteration in which the element has
left the playing state. -/
def incFrameB : VmbFrameC := ⟨9, .Incomplete, 64⟩

/-- A complete frame popped in the very iteration in which the element has
left the playing state. -/
def cmpFrameB : VmbFrameC := ⟨10, .Complete, 64⟩

/-! ## Claim C1: incomplete frames under the Drop policy -/

/-- C1 (counterexample).  The claim says every frame popped by
`gst_vmbsrc_create` with receive status Incomplete under policy Drop is
requeued to the device exactly once.  If the pop that retrieved the frame
happens in the same iteration in which `gst_element_get_state` no longer
reports `GST_STATE_PLAYING`, the function returns `GST_FLOW_FLUSHING`
(line 1310) before the receive status is ever inspected: the frame has been
removed from the queue but is requeued zero times. -/
theorem create_drop_abandons_popped_frame :
    (gst_vmbsrc_create .Drop [⟨some incFrameB, false⟩]).consumed = [incFrameB] ∧
    ¬ (gst_vmbsrc_create .Drop [⟨some incFrameB, false⟩]).requeued.count incFrameB = 1 := by
  decide

/-- C1 (amended).  Under policy Drop, for every schedule of wait-loop
iterations: (a) a frame emitted to the caller is never incomplete — an
incomplete frame restarts the wait loop instead; (b) unless the call returns
Flushing, the requeue trace equals the consumption trace, so every popped
incomplete frame is requeued exactly once (the emitted complete frame is also
requeued once, after the payload copy); (c) on the Flushing path the
consumption trace is the requeue trace plus at most one final popped frame,
which is abandoned without a requeue. -/
theorem gst_vmbsrc_create_drop_spec (events : List WaitEvent) :
    (∀ f, (gst_vmbsrc_create .Drop events).result = .flowOk f →
        f.receiveStatus ≠ .Incomplete) ∧
    ((gst_vmbsrc_create .Drop events).result ≠ .flushing →
        (gst_vmbsrc_create .Drop events).requeued =
          (gst_vmbsrc_create .Drop events).consumed) ∧
    ((gst_vmbsrc_create .Drop events).result = .flushing →
        (gst_vmbsrc_create .Drop events).consumed =
            (gst_vmbsrc_create .Drop events).requeued ∨
          ∃ f, (gst_vmbsrc_create .Drop events).consumed =
            (gst_vmbsrc_create .Drop events).requeued ++ [f]) := by
  induction events with
  | nil =>
    refine ⟨?_, ?_, ?_⟩ <;> simp [gst_vmbsrc_create]
  | cons e rest ih =>
    obtain ⟨p, pl⟩ := e
    cases pl with
    | false =>
      refine ⟨?_, ?_, ?_⟩
      · intro f hf
        simp [gst_vmbsrc_create] at hf
      · intro hne
        simp [gst_vmbsrc_create] at hne
      · intro _
        cases p with
        | none => left; simp [gst_vmbsrc_create]
        | some f => right; exact ⟨f, by simp [gst_vmbsrc_create]⟩
    | true =>
      cases p with
      | none =>
        refine ⟨?_, ?_, ?_⟩
        · intro f hf
          exact ih.1 f (by simpa [gst_vmbsrc_create] using hf)
        · intro hne
          simpa [gst_vmbsrc_create] using
            ih.2.1 (by simpa [gst_vmbsrc_create] using hne)
        · intro hfl
          simpa [gst_vmbsrc_create] using
            ih.2.2 (by simpa [gst_vmbsrc_create] using hfl)
      | some f =>
        by_cases hs : f.receiveStatus = FrameStatus.Incomplete
        · refine ⟨?_, ?_, ?_⟩
          · intro g hg
            exact ih.1 g (by simpa [gst_vmbsrc_create, hs] using hg)
          · intro hne
            have h2 := ih.2.1 (by simpa [gst_vmbsrc_create, hs] using hne)
            simp [gst_vmbsrc_create, hs, h2]
          · intro hfl
            have h3 := ih.2.2 (by simpa [gst_vmbsrc_create, hs] using hfl)
            rcases h3 with h | ⟨g, hg⟩
            · left; simp [gst_vmbsrc_create, hs, h]
            · right; exact ⟨g, by simp [gst_vmbsrc_create, hs, hg]⟩
        · refine ⟨?_, ?_, ?_⟩
          · intro g hg
            have : g = f := by
              simpa [gst_vmbsrc_create, hs, CreateResult.flowOk.injEq] using hg.symm
            rw [this]; exact hs
          · intro _
            simp [gst_vmbsrc_create, hs]
          · intro hfl
            simp [gst_vmbsrc_create, hs] at hfl

/-- C1 (witness).  On a concrete schedule that pops an incomplete frame and
then a complete one while playing, the requeue trace equals the consumption
trace. -/
theorem gst_vmbsrc_create_drop_spec_witness :
    (gst_vmbsrc_create .Drop eventsA).requeued =
      (gst_vmbsrc_create .Drop eventsA).consumed :=
  (gst_vmbsrc_create_drop_spec eventsA).2.1 (by decide)

/-! ## Claim C2: Flushing path of `gst_vmbsrc_create` -/

/-- C2 (counterexample).  The claim says the Flushing path consumes nothing:
no frame is removed from the filled-frame queue and left unrequeued.  But the
state check (line 1306) runs after the pop (line 1301) even when the pop
succeeded, so a schedule whose pop yields a frame in the iteration in which
the element left the playing state returns Flushing with the popped frame
removed from the queue and never requeued. -/
theorem create_flushing_consumes_frame :
    (gst_vmbsrc_create .Drop [⟨some cmpFrameB, false⟩]).result = .flushing ∧
    (gst_vmbsrc_create .Drop [⟨some cmpFrameB, false⟩]).consumed = [cmpFrameB] ∧
    (gst_vmbsrc_create .Drop [⟨some cmpFrameB, false⟩]).requeued = [] := by
  decide

/-- C2 (amended).  If the element leaves the playing state while
`gst_vmbsrc_create` is waiting (every earlier iteration was a plain timeout),
the call returns Flushing in the very iteration that observes the changed
state — within one polling timeout interval — emits no buffer and requeues
nothing; however, if the pop of that final iteration yielded a frame, that
frame is consumed from the queue and left unrequeued. -/
theorem gst_vmbsrc_create_flushing_latency (policy : IncompleteFrameHandling)
    (pre : List WaitEvent) (e : WaitEvent) (rest : List WaitEvent)
    (hpre : ∀ ev ∈ pre, ev.popped = none ∧ ev.playing = true)
    (he : e.playing = false) :
    (gst_vmbsrc_create policy (pre ++ e :: rest)).result = .flushing ∧
    (gst_vmbsrc_create policy (pre ++ e :: rest)).iterations = pre.length + 1 ∧
    (gst_vmbsrc_create policy (pre ++ e :: rest)).requeued = [] ∧
    (gst_vmbsrc_create policy (pre ++ e :: rest)).consumed = e.popped.toList := by
  induction pre with
  | nil =>
    obtain ⟨p, pl⟩ := e
    cases pl with
    | false => simp [gst_vmbsrc_create]
    | true => simp at he
  | cons ev pre' ih =>
    obtain ⟨hp, hpl⟩ := hpre ev (List.mem_cons_self ev pre')
    have ih' := ih (fun x hx => hpre x (List.mem_cons_of_mem ev hx))
    obtain ⟨q, ql⟩ := ev
    simp only at hp hpl
    subst hp
    subst ql
    refine ⟨?_, ?_, ?_, ?_⟩
    · simpa [gst_vmbsrc_create] using ih'.1
    · simpa [gst_vmbsrc_create] using ih'.2.1
    · simpa [gst_vmbsrc_create] using ih'.2.2.1
    · simpa [gst_vmbsrc_create] using ih'.2.2.2

/-- C2 (witness).  Concrete schedule: one plain timeout while playing, then
an iteration in which the element is no longer playing and the pop yields a
frame; the call returns Flushing after two iterations having requeued
nothing and consumed that one frame. -/
theorem gst_vmbsrc_create_flushing_latency_witness :
    (gst_vmbsrc_create .Drop
        [⟨none, true⟩, ⟨some cmpFrameA, false⟩]).result = .flushing ∧
    (gst_vmbsrc_create .Drop
        [⟨none, true⟩, ⟨some cmpFrameA, false⟩]).iterations = 2 ∧
    (gst_vmbsrc_create .Drop
        [⟨none, true⟩, ⟨some cmpFrameA, false⟩]).requeued = [] ∧
    (gst_vmbsrc_create .Drop
        [⟨none, true⟩, ⟨some cmpFrameA, false⟩]).consumed = [cmpFrameA] := by
  have h := gst_vmbsrc_create_flushing_latency .Drop [⟨none, true⟩]
    ⟨some cmpFrameA, false⟩ [] (by decide) (by decide)
  simpa using h

/-! ## The trigger sequencer: `apply_trigger_settings` (lines 1792-1916) -/

/-- One trigger property value as the source dispatches on it: either the
`UNCHANGED` sentinel of its GEnum, or an explicit entry carrying the
`value_nick` string passed to `VmbFeatureEnumSet`. -/
inductive TriggerFieldValue where
  | Unchanged
  | Explicit (nick : String)
deriving DecidableEq, Repr

/-- The four trigger-related element properties read by
`apply_trigger_settings`. -/
structure TriggerProps where
  triggerselector : TriggerFieldValue
  triggeractivation : TriggerFieldValue
  triggersource : TriggerFieldValue
  triggermode : TriggerFieldValue
deriving DecidableEq, Repr

/-- One field step of `apply_trigger_settings`: an `UNCHANGED` value issues
no device set and leaves `result` untouched; an explicit value issues one
`VmbFeatureEnumSet` whose result overwrites `result`. -/
def applyTriggerField (dev : String → String → VmbError) (feature : String)
    (v : TriggerFieldValue) (result : VmbError) : VmbError × List DevOp :=
  match v with
  | .Unchanged => (result, [])
  | .Explicit nick => (dev feature nick, [.enumSet feature nick])

/-- `apply_trigger_settings` (lines 1792-1916): the four trigger features are
handled strictly in the order TriggerSelector, TriggerActivation,
TriggerSource, TriggerMode, threading the `result` variable through the
performed sets. -/
def apply_trigger_settings (dev : String → String → VmbError)
    (props : TriggerProps) : VmbError × List DevOp :=
  let r0 := VmbError.Success
  let s1 := applyTriggerField dev "TriggerSelector" props.triggerselector r0
  let s2 := applyTriggerField dev "TriggerActivation" props.triggeractivation s1.1
  let s3 := applyTriggerField dev "TriggerSource" props.triggersource s2.1
  let s4 := applyTriggerField dev "TriggerMode" props.triggermode s3.1
  (s4.1, s1.2 ++ s2.2 ++ s3.2 ++ s4.2)

/-! ## Claim C5: trigger set order and skipping -/

/-- C5.  For every device behaviour and every property assignment: with all
four trigger fields explicit, `apply_trigger_settings` issues exactly four
device sets, in the order TriggerSelector, TriggerActivation, TriggerSource,
TriggerMode; and any field holding the `UNCHANGED` sentinel contributes no
device set for its feature. -/
theorem apply_trigger_settings_order (dev : String → String → VmbError)
    (props : TriggerProps) :
    (∀ s a src m,
      props = ⟨.Explicit s, .Explicit a, .Explicit src, .Explicit m⟩ →
      (apply_trigger_settings dev props).2 =
        [.enumSet "TriggerSelector" s, .enumSet "TriggerActivation" a,
         .enumSet "TriggerSource" src, .enumSet "TriggerMode" m]) ∧
    (props.triggerselector = .Unchanged →
      ∀ v, DevOp.enumSet "TriggerSelector" v ∉ (apply_trigger_settings dev props).2) ∧
    (props.triggeractivation = .Unchanged →
      ∀ v, DevOp.enumSet "TriggerActivation" v ∉ (apply_trigger_settings dev props).2) ∧
    (props.triggersource = .Unchanged →
      ∀ v, DevOp.enumSet "TriggerSource" v ∉ (apply_trigger_settings dev props).2) ∧
    (props.triggermode = .Unchanged →
      ∀ v, DevOp.enumSet "TriggerMode" v ∉ (apply_trigger_settings dev props).2) := by
  obtain ⟨fs, fa, fsrc, fm⟩ := props
  refine ⟨?_, ?_, ?_, ?_, ?_⟩
  · rintro s a src m ⟨rfl, rfl, rfl, rfl⟩
    simp [apply_trigger_settings, applyTriggerField]
  · rintro rfl v
    cases fa <;> cases fsrc <;> cases fm <;>
      simp [apply_trigger_settings, applyTriggerField]
  · rintro rfl v
    cases fs <;> cases fsrc <;> cases fm <;>
      simp [apply_trigger_settings, applyTriggerField]
  · rintro rfl v
    cases fs <;> cases fa <;> cases fm <;>
      simp [apply_trigger_settings, applyTriggerField]
  · rintro rfl v
    cases fs <;> cases fa <;> cases fsrc <;>
      simp [apply_trigger_settings, applyTriggerField]

/-- C5 (witness).  The spec's concrete instance: selector FrameStart,
activation RisingEdge, source Line0, mode On issues exactly those four sets
in order (for a device accepting every set). -/
theorem apply_trigger_settings_order_witness :
    (apply_trigger_settings (fun _ _ => .Success)
      ⟨.Explicit "FrameStart", .Explicit "RisingEdge",
       .Explicit "Line0", .Explicit "On"⟩).2 =
      [.enumSet "TriggerSelector" "FrameStart",
       .enumSet "TriggerActivation" "RisingEdge",
       .enumSet "TriggerSource" "Line0",
       .enumSet "TriggerMode" "On"] :=
  (apply_trigger_settings_order (fun _ _ => .Success)
      ⟨.Explicit "FrameStart", .Explicit "RisingEdge",
       .Explicit "Line0", .Explicit "On"⟩).1
    "FrameStart" "RisingEdge" "Line0" "On" rfl

/-! ## The capture session: `start_image_acquisition` (lines 2012-2049) and
`stop_image_acquisition` (lines 2057-2083)

Both functions contain a `do { if (VmbErrorSuccess != VmbFeatureCommandIsDone(...))
break; } while (!done);` polling loop.  The successive poll responses are an
environment list; a schedule on which the loop never exits models the real
code's nontermination, so the model functions return `Option`. -/

/-- Device behaviour consumed by `start_image_acquisition`. -/
structure StartEnv where
  captureStart : VmbError
  frameQueue : Nat → VmbError
  commandRun : VmbError
  isDonePolls : List (VmbError × Bool)

/-- Device behaviour consumed by `stop_image_acquisition`. -/
structure StopEnv where
  commandRun : VmbError
  isDonePolls : List (VmbError × Bool)
  captureEnd : VmbError

/-- Observable outcome of a session call: the returned `VmbError_t`, the
device-operation trace and the value of `camera.is_acquiring` afterwards. -/
structure SessionOutcome where
  result : VmbError
  trace : List DevOp
  isAcquiring : Bool
deriving DecidableEq, Repr

/-- The completion-polling loop shared by both functions: poll
`VmbFeatureCommandIsDone` until it errors (break) or reports done.  Returns
the trace of polls, or `none` when the response schedule is exhausted without
either (the real loop would spin forever). -/
def pollCommandDone (feature : String) : List (VmbError × Bool) → Option (List DevOp)
  | [] => none
  | (err, isdone) :: rest =>
    if err ≠ VmbError.Success then some [.commandIsDone feature]
    else if isdone then some [.commandIsDone feature]
    else (pollCommandDone feature rest).map (fun t => .commandIsDone feature :: t)

/-- The frame-queueing loop of `start_image_acquisition` (lines 2020-2028):
queue buffers in index order, stopping at the first failure.  Arguments are
the remaining count and the current index; returns the final `result` and the
trace of `VmbCaptureFrameQueue` calls. -/
def queueFrames (dev : Nat → VmbError) : Nat → Nat → VmbError × List DevOp
  | 0, _ => (.Success, [])
  | k + 1, i =>
    if dev i ≠ .Success then (dev i, [.frameQueue i])
    else
      let r := queueFrames dev k (i + 1)
      (r.1, .frameQueue i :: r.2)

/-- `start_image_acquisition` (lines 2012-2049) over a pool of `n` frame
buffers, called with `camera.is_acquiring = acquiring`.  Note that the
function never reads `acquiring`: the source has no wrong-state guard.  When
capture start and all queue calls succeed, the returned `result` is the
`AcquisitionStart` command-run result; the completion polls that follow never
overwrite it, and `is_acquiring` is set to true regardless of it
(line 2045). -/
def start_image_acquisition (env : StartEnv) (n : Nat) (acquiring : Bool) :
    Option SessionOutcome :=
  if env.captureStart ≠ .Success then
    some ⟨env.captureStart, [.captureStart], acquiring⟩
  else
    if (queueFrames env.frameQueue n 0).1 ≠ .Success then
      some ⟨(queueFrames env.frameQueue n 0).1,
        .captureStart :: (queueFrames env.frameQueue n 0).2, acquiring⟩
    else
      match pollCommandDone "AcquisitionStart" env.isDonePolls with
      | none => none
      | some pt =>
        some ⟨env.commandRun,
          .captureStart :: (queueFrames env.frameQueue n 0).2 ++
            .commandRun "AcquisitionStart" :: pt, true⟩

/-- `stop_image_acquisition` (lines 2057-2083), called with
`camera.is_acquiring = acquiring` (also never read).  The `AcquisitionStop`
command-run result is assigned to `result` but unconditionally overwritten by
the `VmbCaptureEnd` result (line 2076), which the function returns; the
capture-queue flush result is discarded. -/
def stop_image_acquisition (env : StopEnv) (_acquiring : Bool) :
    Option SessionOutcome :=
  match pollCommandDone "AcquisitionStop" env.isDonePolls with
  | none => none
  | some pt =>
    some ⟨env.captureEnd,
      .commandRun "AcquisitionStop" :: pt ++ [.captureEnd, .captureQueueFlush],
      false⟩

/-- With a device that accepts every queue call, the queue loop reports
success. -/
theorem queueFrames_success (dev : Nat → VmbError) (h : ∀ i, dev i = .Success) :
    ∀ k i, (queueFrames dev k i).1 = .Success := by
  intro k
  induction k with
  | zero => intro i; simp [queueFrames]
  | succ k ih => intro i; simp [queueFrames, h, ih]

/-! ## Claim C7: wrong-state start/stop calls -/

/-- A device that accepts every start-side call and confirms completion on
the first poll. -/
def allGoodStartEnv : StartEnv :=
  ⟨.Success, fun _ => .Success, .Success, [(.Success, true)]⟩

/-- A device that accepts every stop-side call and confirms completion on the
first poll. -/
def allGoodStopEnv : StopEnv :=
  ⟨.Success, [(.Success, true)], .Success⟩

/-- C7 (counterexample).  The claim says calling start while already
Acquiring, or stop while Connected-Idle, returns an error and issues no
further device state change.  Neither function inspects
`camera.is_acquiring`: started in the Acquiring state (flag true) against a
device that accepts everything, `start_image_acquisition` returns
`VmbErrorSuccess` — not an error — and its trace begins with the
`VmbCaptureStart` state change; symmetrically for `stop_image_acquisition`
in the idle state. -/
theorem start_stop_wrong_state_counterexample :
    (start_image_acquisition allGoodStartEnv 1 true).map SessionOutcome.result =
        some .Success ∧
    (start_image_acquisition allGoodStartEnv 1 true).map SessionOutcome.trace =
        some [.captureStart, .frameQueue 0, .commandRun "AcquisitionStart",
              .commandIsDone "AcquisitionStart"] ∧
    (stop_image_acquisition allGoodStopEnv false).map SessionOutcome.result =
        some .Success ∧
    (stop_image_acquisition allGoodStopEnv false).map SessionOutcome.trace =
        some [.commandRun "AcquisitionStop", .commandIsDone "AcquisitionStop",
              .captureEnd, .captureQueueFlush] := by
  decide

/-- C7 (amended).  Wrong-state calls are not detected: neither
`start_image_acquisition` nor `stop_image_acquisition` consults the
acquisition flag, so a call in the wrong state issues exactly the device
commands of a call in the right state, and when the device accepts them the
call reports success and flips the flag as usual. -/
theorem start_stop_no_wrong_state_guard (senv : StartEnv) (tenv : StopEnv) (n : Nat)
    (hcs : senv.captureStart = .Success) (hq : ∀ i, senv.frameQueue i = .Success)
    (hrun : senv.commandRun = .Success) (hpoll : senv.isDonePolls = [(.Success, true)])
    (hce : tenv.captureEnd = .Success) (hpoll2 : tenv.isDonePolls = [(.Success, true)]) :
    (∀ b b', start_image_acquisition senv n b = start_image_acquisition senv n b' ∧
      stop_image_acquisition tenv b = stop_image_acquisition tenv b') ∧
    (∃ o, start_image_acquisition senv n true = some o ∧ o.result = .Success ∧
      DevOp.captureStart ∈ o.trace ∧ o.isAcquiring = true) ∧
    (∃ o, stop_image_acquisition tenv false = some o ∧ o.result = .Success ∧
      DevOp.commandRun "AcquisitionStop" ∈ o.trace ∧ o.isAcquiring = false) := by
  have hqr := queueFrames_success senv.frameQueue hq n 0
  refine ⟨?_, ?_, ?_⟩
  · intro b b'
    constructor
    · simp [start_image_acquisition, hcs, hqr, hpoll, pollCommandDone]
    · simp [stop_image_acquisition, hpoll2, pollCommandDone]
  · refine ⟨⟨.Success, .captureStart :: (queueFrames senv.frameQueue n 0).2 ++
      .commandRun "AcquisitionStart" :: [.commandIsDone "AcquisitionStart"], true⟩,
      ?_, rfl, ?_, rfl⟩
    · simp [start_image_acquisition, hcs, hqr, hpoll, pollCommandDone, hrun]
    · simp
  · refine ⟨⟨.Success, .commandRun "AcquisitionStop" ::
      [.commandIsDone "AcquisitionStop"] ++ [.captureEnd, .captureQueueFlush],
      false⟩, ?_, rfl, ?_, rfl⟩
    · simp [stop_image_acquisition, hpoll2, pollCommandDone, hce]
    · simp

/-- C7 (witness).  The amended theorem instantiated with the all-accepting
device over a two-buffer pool. -/
theorem start_stop_no_wrong_state_guard_witness :
    ∃ o, start_image_acquisition allGoodStartEnv 2 true = some o ∧
      o.result = .Success ∧ DevOp.captureStart ∈ o.trace ∧ o.isAcquiring = true :=
  (start_stop_no_wrong_state_guard allGoodStartEnv allGoodStopEnv 2
    rfl (fun _ => rfl) rfl rfl rfl rfl).2.1

/-! ## Claim C8: surfacing of blocking-command failures -/

/-- A start-side device whose `AcquisitionStart` completion poll itself
errors on the first query. -/
def pollErrStartEnv : StartEnv :=
  ⟨.Success, fun _ => .Success, .Success, [(.Other 1, false)]⟩

/-- A stop-side device whose `AcquisitionStop` command run fails while
`VmbCaptureEnd` succeeds. -/
def runErrStopEnv : StopEnv :=
  ⟨.Other 2, [(.Success, true)], .Success⟩

/-- C8 (counterexample).  The claim says start/stop return an error whenever
the command run or its confirmation polling fails.  But a failing
`VmbFeatureCommandIsDone` merely breaks the wait loop without touching
`result`, so `start_image_acquisition` returns `VmbErrorSuccess` although the
confirmation poll errored; and `stop_image_acquisition` overwrites the failed
`AcquisitionStop` run result with the successful `VmbCaptureEnd` result
(line 2076) and also returns `VmbErrorSuccess`. -/
theorem start_stop_poll_failure_counterexample :
    (start_image_acquisition pollErrStartEnv 1 false).map SessionOutcome.result =
        some .Success ∧
    (stop_image_acquisition runErrStopEnv true).map SessionOutcome.result =
        some .Success := by
  decide

/-- C8 (amended).  When every buffer-queue call succeeds,
`start_image_acquisition` returns the `VmbCaptureStart` error if that call
failed and otherwise the `AcquisitionStart` command-run result — a failure of
the completion polling only ends the wait and is never reflected in the
result; `stop_image_acquisition` returns exactly the `VmbCaptureEnd` result,
so failures of the `AcquisitionStop` run or of its confirmation polling are
never surfaced. -/
theorem start_stop_result_characterization (senv : StartEnv) (tenv : StopEnv)
    (n : Nat) (b b' : Bool) (hq : ∀ i, senv.frameQueue i = .Success) :
    (∀ o, start_image_acquisition senv n b = some o →
      o.result = if senv.captureStart ≠ .Success then senv.captureStart
                 else senv.commandRun) ∧
    (∀ o, stop_image_acquisition tenv b' = some o → o.result = tenv.captureEnd) := by
  have hqr := queueFrames_success senv.frameQueue hq n 0
  constructor
  · intro o ho
    by_cases hcs : senv.captureStart = .Success
    · rw [start_image_acquisition] at ho
      simp only [hcs, hqr, ne_eq, not_true_eq_false, if_false, ite_false] at ho
      rcases hp : pollCommandDone "AcquisitionStart" senv.isDonePolls with _ | pt
      · rw [hp] at ho; cases ho
      · rw [hp] at ho
        simp only [Option.some.injEq] at ho
        rw [← ho]
        simp [hcs]
    · rw [start_image_acquisition] at ho
      simp only [ne_eq, hcs, not_false_eq_true, if_true, ite_true,
        Option.some.injEq] at ho
      rw [← ho]
      simp [hcs]
  · intro o ho
    rw [stop_image_acquisition] at ho
    rcases hp : pollCommandDone "AcquisitionStop" tenv.isDonePolls with _ | pt
    · rw [hp] at ho; cases ho
    · rw [hp] at ho
      simp only [Option.some.injEq] at ho
      rw [← ho]

/-- C8 (witness).  The characterization applied to the poll-failure start
device and the run-failure stop device: both calls report success. -/
theorem start_stop_result_characterization_witness :
    (∀ o, start_image_acquisition pollErrStartEnv 1 false = some o →
      o.result = if pollErrStartEnv.captureStart ≠ .Success
                 then pollErrStartEnv.captureStart else pollErrStartEnv.commandRun) ∧
    (∀ o, stop_image_acquisition runErrStopEnv true = some o →
      o.result = runErrStopEnv.captureEnd) :=
  start_stop_result_characterization pollErrStartEnv runErrStopEnv 1 false true
    (fun _ => rfl)

/-! ## The buffer pool: `alloc_and_announce_buffers` (lines 1924-1981) and
`revoke_and_free_buffers` (lines 1988-2003)

A `VmbFrame_t` descriptor is reduced to the fields the source manipulates:
the buffer pointer (a memory token, `none` modelling NULL), `bufferSize`, and
`context[0]` (the queue object used by the frame callback).  `memset(..., 0,
sizeof(VmbFrame_t))` is `zeroVmbFrame`. -/

/-- The fields of a `VmbFrame_t` descriptor written by the pool code. -/
structure VmbFrameModel where
  buffer : Option Nat
  bufferSize : Nat
  context0 : Option Nat
deriving DecidableEq, Repr

/-- A fully zeroed descriptor (`memset` to 0): NULL buffer, size 0, NULL
context. -/
def zeroVmbFrame : VmbFrameModel := ⟨none, 0, none⟩

@[simp]
theorem zeroVmbFrame_buffer : zeroVmbFrame.buffer = none := rfl

/-- Device behaviour consumed by `alloc_and_announce_buffers`: the
`VmbPayloadSizeGet` result and value, the `VmbAlignedAlloc` outcome per
buffer index (`none` = NULL, allocation failed), and the `VmbFrameAnnounce`
result per index.  The `StreamBufferAlignment` read is not modelled: the
source discards its result and the alignment value does not affect any
observable of the claims. -/
structure AllocEnv where
  payloadSizeGet : VmbError × Nat
  alignedAlloc : Nat → Option Nat
  frameAnnounce : Nat → VmbError

/-- The allocation/announcement loop of `alloc_and_announce_buffers`
(lines 1934-1978), from buffer index `i` over the remaining descriptors.
In `AnnounceFrame` mode a NULL `VmbAlignedAlloc` result stores NULL in the
descriptor's buffer field and breaks with `VmbErrorResources` — the buffers
of earlier iterations are not released.  An announcement failure frees that
one buffer, zeroes its descriptor and breaks with the device's error. -/
def alloc_and_announce_loop (env : AllocEnv) (mode : AllocationMode)
    (queue : Option Nat) (payload : Nat) :
    Nat → List VmbFrameModel → VmbError × List VmbFrameModel × List DevOp
  | _, [] => (.Success, [], [])
  | i, f :: rest =>
    let balloc : Option (Option Nat) :=
      match mode with
      | .AnnounceFrame =>
        match env.alignedAlloc i with
        | none => none
        | some tok => some (some tok)
      | .AllocAndAnnounceFrame => some none
    match balloc with
    | none => (.Resources, { f with buffer := none } :: rest, [])
    | some b =>
      if env.frameAnnounce i ≠ .Success then
        (env.frameAnnounce i, zeroVmbFrame :: rest, [.frameAnnounce i, .freeBuf i])
      else
        let r := alloc_and_announce_loop env mode queue payload (i + 1) rest
        (r.1, (⟨b, payload, queue⟩ : VmbFrameModel) :: r.2.1,
          .frameAnnounce i :: r.2.2)

/-- `alloc_and_announce_buffers` (lines 1924-1981): read the payload size
(abort on failure), then run the per-buffer loop with the current
`filled_frame_queue` as every descriptor's `context[0]` (line 1966). -/
def alloc_and_announce_buffers (env : AllocEnv) (mode : AllocationMode)
    (queue : Option Nat) (frames : List VmbFrameModel) :
    VmbError × List VmbFrameModel × List DevOp :=
  if env.payloadSizeGet.1 ≠ .Success then
    (env.payloadSizeGet.1, frames, [.payloadSizeGet])
  else
    let r := alloc_and_announce_loop env mode queue env.payloadSizeGet.2 0 frames
    (r.1, r.2.1, .payloadSizeGet :: r.2.2)

/-- `revoke_and_free_buffers` (lines 1988-2003), from buffer index `i`: every
descriptor with a non-NULL buffer pointer is revoked at the device, its
memory freed when the element allocated it itself (`AnnounceFrame` mode), and
the descriptor zeroed; descriptors with a NULL buffer pointer are skipped
entirely. -/
def revoke_and_free_buffers (mode : AllocationMode) :
    Nat → List VmbFrameModel → List VmbFrameModel × List DevOp
  | _, [] => ([], [])
  | i, f :: rest =>
    let r := revoke_and_free_buffers mode (i + 1) rest
    match f.buffer with
    | some _ =>
      (zeroVmbFrame :: r.1,
        .frameRevoke i ::
          ((if mode = .AnnounceFrame then [.freeBuf i] else []) ++ r.2))
    | none => (f :: r.1, r.2)

/-! ## Claim C9: idempotent revoke -/

/-- If every descriptor with a NULL buffer pointer is already zeroed, revoke
zeroes the whole pool. -/
theorem revoke_zeroes (mode : AllocationMode) :
    ∀ (i : Nat) (frames : List VmbFrameModel),
      (∀ f ∈ frames, f.buffer = none → f = zeroVmbFrame) →
      (revoke_and_free_buffers mode i frames).1 =
        List.replicate frames.length zeroVmbFrame := by
  intro i frames
  induction frames generalizing i with
  | nil => intro _; simp [revoke_and_free_buffers]
  | cons f rest ih =>
    intro h
    have hrest := ih (i + 1) (fun g hg => h g (List.mem_cons_of_mem f hg))
    rcases hb : f.buffer with _ | tok
    · have hf := h f (List.mem_cons_self f rest) hb
      subst hf
      simp [revoke_and_free_buffers, hrest, List.replicate_succ]
    · simp [revoke_and_free_buffers, hb, hrest, List.replicate_succ]

/-- Revoking an already zeroed pool does nothing and issues no device
operations. -/
theorem revoke_replicate_zero (mode : AllocationMode) :
    ∀ (i n : Nat),
      revoke_and_free_buffers mode i (List.replicate n zeroVmbFrame) =
        (List.replicate n zeroVmbFrame, []) := by
  intro i n
  induction n generalizing i with
  | zero => simp [revoke_and_free_buffers]
  | succ n ih =>
    simp [List.replicate_succ, revoke_and_free_buffers, ih]

/-- The device-operation trace of revoke: one `VmbFrameRevoke` per descriptor
with a non-NULL buffer, immediately followed by one free when the element
owns the memory, in index order. -/
theorem revoke_trace (mode : AllocationMode) :
    ∀ (i : Nat) (frames : List VmbFrameModel),
      (revoke_and_free_buffers mode i frames).2 =
        ((List.enumFrom i frames).filter (fun p => p.2.buffer.isSome)).flatMap
          (fun p => .frameRevoke p.1 ::
            (if mode = .AnnounceFrame then [.freeBuf p.1] else [])) := by
  intro i frames
  induction frames generalizing i with
  | nil => simp [revoke_and_free_buffers]
  | cons f rest ih =>
    rcases hb : f.buffer with _ | tok
    · simp [revoke_and_free_buffers, hb, ih (i + 1), List.enumFrom]
    · simp [revoke_and_free_buffers, hb, ih (i + 1), List.enumFrom]

/-- C9.  For a pool in which every NULL-buffer descriptor is already zeroed
(true for a never-allocated pool and for any pool populated in the
self-allocating `AnnounceFrame` mode), `revoke_and_free_buffers`:
leaves all `N` descriptors zeroed; called a second time in a row it succeeds
again, changes nothing and issues no device operation; and its trace detaches
(revokes) each non-NULL buffer exactly once, freeing the element-owned memory
when the element allocated it. -/
theorem revoke_and_free_buffers_spec (mode : AllocationMode)
    (frames : List VmbFrameModel)
    (h : ∀ f ∈ frames, f.buffer = none → f = zeroVmbFrame) :
    (revoke_and_free_buffers mode 0 frames).1 =
        List.replicate frames.length zeroVmbFrame ∧
    revoke_and_free_buffers mode 0 ((revoke_and_free_buffers mode 0 frames).1) =
        (List.replicate frames.length zeroVmbFrame, []) ∧
    (revoke_and_free_buffers mode 0 frames).2 =
      ((List.enumFrom 0 frames).filter (fun p => p.2.buffer.isSome)).flatMap
        (fun p => .frameRevoke p.1 ::
          (if mode = .AnnounceFrame then [.freeBuf p.1] else [])) := by
  refine ⟨revoke_zeroes mode 0 frames h, ?_, revoke_trace mode 0 frames⟩
  rw [revoke_zeroes mode 0 frames h, revoke_replicate_zero]

/-- A concrete two-buffer self-allocated pool. -/
def poolA : List VmbFrameModel := [⟨some 5, 40, some 1⟩, ⟨some 6, 40, some 1⟩]

/-- C9 (witness).  On the concrete pool, revoke zeroes both descriptors and a
second revoke is a no-op issuing no device operations. -/
theorem revoke_and_free_buffers_spec_witness :
    (revoke_and_free_buffers .AnnounceFrame 0 poolA).1 =
        List.replicate poolA.length zeroVmbFrame ∧
    revoke_and_free_buffers .AnnounceFrame 0
        ((revoke_and_free_buffers .AnnounceFrame 0 poolA).1) =
      (List.replicate poolA.length zeroVmbFrame, []) :=
  ⟨(revoke_and_free_buffers_spec .AnnounceFrame poolA (by decide)).1,
   (revoke_and_free_buffers_spec .AnnounceFrame poolA (by decide)).2.1⟩

/-! ## Claim C4: allocation failure inside the announce loop -/

/-- An environment whose second `VmbAlignedAlloc` fails while everything else
succeeds. -/
def allocFailEnvC4 : AllocEnv :=
  ⟨(.Success, 50), fun i => if i = 0 then some 100 else none, fun _ => .Success⟩

/-- C4 (counterexample).  The claim says that on an allocation failure the
call releases all buffers allocated so far.  With two descriptors, a payload
of 50, a successful allocation and announcement for buffer 0 and a failing
allocation for buffer 1, the call does fail with `VmbErrorResources` — but
descriptor 0 still holds its allocated memory on return, and the trace
contains no free: nothing was released. -/
theorem alloc_failure_leaks_counterexample :
    (alloc_and_announce_buffers allocFailEnvC4 .AnnounceFrame (some 3)
        [zeroVmbFrame, zeroVmbFrame]).1 = .Resources ∧
    (alloc_and_announce_buffers allocFailEnvC4 .AnnounceFrame (some 3)
        [zeroVmbFrame, zeroVmbFrame]).2.1 =
      [⟨some 100, 50, some 3⟩, zeroVmbFrame] ∧
    (alloc_and_announce_buffers allocFailEnvC4 .AnnounceFrame (some 3)
        [zeroVmbFrame, zeroVmbFrame]).2.2 =
      [.payloadSizeGet, .frameAnnounce 0] := by
  decide

/-- The allocation/announce loop when the first failure is an allocation
failure at relative index `k`: the loop aborts with `VmbErrorResources`,
every earlier descriptor keeps its allocated buffer, and no memory is
freed. -/
theorem alloc_loop_alloc_failure (env : AllocEnv) (queue : Option Nat)
    (payload : Nat) :
    ∀ (k i : Nat) (frames : List VmbFrameModel),
      (∀ j, j < k → (env.alignedAlloc (i + j)).isSome ∧
        env.frameAnnounce (i + j) = .Success) →
      env.alignedAlloc (i + k) = none → k < frames.length →
      (alloc_and_announce_loop env .AnnounceFrame queue payload i frames).1 =
          .Resources ∧
      (∀ j, j < k →
        (alloc_and_announce_loop env .AnnounceFrame queue payload i
            frames).2.1.get? j =
          some ⟨env.alignedAlloc (i + j), payload, queue⟩) ∧
      (∀ m, DevOp.freeBuf m ∉
        (alloc_and_announce_loop env .AnnounceFrame queue payload i
          frames).2.2) := by
  intro k
  induction k with
  | zero =>
    intro i frames _ hfail hlen
    have hfail' : env.alignedAlloc i = none := by simpa using hfail
    match frames with
    | f :: rest =>
      refine ⟨?_, ?_, ?_⟩
      · simp [alloc_and_announce_loop, hfail']
      · intro j hj; exact absurd hj (Nat.not_lt_zero j)
      · intro m; simp [alloc_and_announce_loop, hfail']
  | succ k ih =>
    intro i frames hpre hfail hlen
    match frames, hlen with
    | f :: rest, hlen =>
      obtain ⟨hs0, ha0⟩ := hpre 0 (Nat.succ_pos k)
      rcases htok : env.alignedAlloc (i + 0) with _ | tok
      · rw [htok] at hs0; cases hs0
      · have htok' : env.alignedAlloc i = some tok := by simpa using htok
        have ha0' : env.frameAnnounce i = .Success := by simpa using ha0
        have hpre' : ∀ j, j < k → (env.alignedAlloc (i + 1 + j)).isSome ∧
            env.frameAnnounce (i + 1 + j) = .Success := by
          intro j hj
          have := hpre (j + 1) (Nat.succ_lt_succ hj)
          have harith : i + (j + 1) = i + 1 + j := by omega
          rwa [harith] at this
        have hfail' : env.alignedAlloc (i + 1 + k) = none := by
          have harith : i + (k + 1) = i + 1 + k := by omega
          rwa [harith] at hfail
        have hlen' : k < rest.length := by
          simpa [Nat.succ_lt_succ_iff] using hlen
        obtain ⟨ihr, ihget, ihfree⟩ := ih (i + 1) rest hpre' hfail' hlen'
        refine ⟨?_, ?_, ?_⟩
        · simp [alloc_and_announce_loop, htok', ha0', ihr]
        · intro j hj
          cases j with
          | zero =>
            simp [alloc_and_announce_loop, htok', ha0']
          | succ j =>
            have hj' : j < k := Nat.lt_of_succ_lt_succ hj
            have := ihget j hj'
            have harith : i + 1 + j = i + (j + 1) := by omega
            rw [harith] at this
            simpa [alloc_and_announce_loop, htok', ha0'] using this
        · intro m
          simp only [alloc_and_announce_loop, htok', ha0']
          simpa using ihfree m

/-- C4 (amended).  In `AnnounceFrame` mode, when the first failure of the
loop is an allocation failure at index `k` (payload size readable, every
earlier buffer allocated and announced successfully), the call fails with
`VmbErrorResources` — but the buffers allocated earlier in the same call are
*not* released: each descriptor `j < k` still holds its allocated memory and
its announced state on return, and the trace contains no free at all.  Only
an announcement failure releases (that single) buffer. -/
theorem alloc_and_announce_alloc_failure (env : AllocEnv) (queue : Option Nat)
    (frames : List VmbFrameModel) (k : Nat)
    (hp : env.payloadSizeGet.1 = .Success)
    (hpre : ∀ j, j < k → (env.alignedAlloc j).isSome ∧
      env.frameAnnounce j = .Success)
    (hfail : env.alignedAlloc k = none) (hlen : k < frames.length) :
    (alloc_and_announce_buffers env .AnnounceFrame queue frames).1 =
        .Resources ∧
    (∀ j, j < k →
      (alloc_and_announce_buffers env .AnnounceFrame queue frames).2.1.get? j =
          some ⟨env.alignedAlloc j, env.payloadSizeGet.2, queue⟩ ∧
        (env.alignedAlloc j).isSome) ∧
    (∀ m, DevOp.freeBuf m ∉
      (alloc_and_announce_buffers env .AnnounceFrame queue frames).2.2) := by
  have hpre0 : ∀ j, j < k → (env.alignedAlloc (0 + j)).isSome ∧
      env.frameAnnounce (0 + j) = .Success := by
    intro j hj; simpa using hpre j hj
  have hfail0 : env.alignedAlloc (0 + k) = none := by simpa using hfail
  obtain ⟨hr, hget, hfree⟩ :=
    alloc_loop_alloc_failure env queue env.payloadSizeGet.2 k 0 frames
      hpre0 hfail0 hlen
  refine ⟨?_, ?_, ?_⟩
  · simp [alloc_and_announce_buffers, hp, hr]
  · intro j hj
    refine ⟨?_, (hpre j hj).1⟩
    have := hget j hj
    simp only [Nat.zero_add] at this
    simpa [alloc_and_announce_buffers, hp] using this
  · intro m
    simp only [alloc_and_announce_buffers, hp]
    simp only [ne_eq, not_true_eq_false, if_false, ite_false]
    intro hmem
    rcases List.mem_cons.mp hmem with h | h
    · cases h
    · exact hfree m h

/-- C4 (witness).  The amended theorem instantiated on the concrete failing
environment: the call fails with `VmbErrorResources` while descriptor 0
still holds its memory. -/
theorem alloc_and_announce_alloc_failure_witness :
    (alloc_and_announce_buffers allocFailEnvC4 .AnnounceFrame (some 3)
        [zeroVmbFrame, zeroVmbFrame]).1 = .Resources ∧
    (∀ j, j < 1 →
      (alloc_and_announce_buffers allocFailEnvC4 .AnnounceFrame (some 3)
          [zeroVmbFrame, zeroVmbFrame]).2.1.get? j =
          some ⟨allocFailEnvC4.alignedAlloc j, allocFailEnvC4.payloadSizeGet.2,
            some 3⟩ ∧
        (allocFailEnvC4.alignedAlloc j).isSome) ∧
    (∀ m, DevOp.freeBuf m ∉
      (alloc_and_announce_buffers allocFailEnvC4 .AnnounceFrame (some 3)
        [zeroVmbFrame, zeroVmbFrame]).2.2) :=
  alloc_and_announce_alloc_failure allocFailEnvC4 (some 3)
    [zeroVmbFrame, zeroVmbFrame] 1 rfl
    (by intro j hj; interval_cases j; simp [allocFailEnvC4])
    (by simp [allocFailEnvC4]) (by simp)

/-! ## Format commitment: `gst_vmbsrc_set_caps` (lines 1107-1188) and the
frame callback `vimbax_frame_callback` (lines 2085-2093)

The element state touched by the set-caps path: the identity of the current
`filled_frame_queue` object (`none` = NULL pointer), a counter supplying the
identity of the next `g_async_queue_new()` object, the buffer-descriptor
array and the acquiring flag. -/

/-- Element state carried through `gst_vmbsrc_set_caps`. -/
structure SrcState where
  filledFrameQueue : Option Nat
  nextQueueId : Nat
  frameBuffers : List VmbFrameModel
  isAcquiring : Bool
deriving DecidableEq, Repr

/-- Device behaviour consumed by the set-caps tail: the stop call, the
`PixelFormat` set, the `VmbPayloadSizeGet` of line 1173, the allocation
environment for a possible reallocation, and the restart call. -/
structure SetCapsEnv where
  stopEnv : StopEnv
  pixelFormatSet : VmbError
  payloadSizeGet : VmbError × Nat
  allocEnv : AllocEnv
  startEnv : StartEnv

/-- Observable outcome of the set-caps tail. -/
structure SetCapsOutcome where
  result : VmbError
  state : SrcState
  trace : List DevOp
deriving DecidableEq, Repr

/-- `vimbax_frame_callback` (lines 2085-2093): the completed frame is pushed
onto the queue object stored in the frame's `context[0]`; the function
returns the identity of that queue.  The comment in the source notes that
`context[0]` holds `vmbsrc->filled_frame_queue` — but only its value at
announce time (line 1966). -/
def vimbax_frame_callback (f : VmbFrameModel) : Option Nat := f.context0

/-- The tail of `gst_vmbsrc_set_caps` after a matching device pixel format
was found (lines 1142-1187): stop acquisition (result discarded), replace a
non-NULL `filled_frame_queue` with a fresh queue object, set `PixelFormat`
(abort on failure), read the payload size, and when the first descriptor's
capacity is below the new payload size or the read failed, revoke and
reallocate the pool before restarting acquisition; restart only when
everything so far succeeded.  `mode` is the `allocationmode` property and
`fmt` the device pixel-format name.  `none` models nontermination of a
completion-polling loop inside stop or start. -/
def gst_vmbsrc_set_caps_tail (env : SetCapsEnv) (mode : AllocationMode)
    (fmt : String) (s : SrcState) : Option SetCapsOutcome :=
  match stop_image_acquisition env.stopEnv s.isAcquiring with
  | none => none
  | some so =>
    let s1 : SrcState :=
      match s.filledFrameQueue with
      | some _ => { s with filledFrameQueue := some s.nextQueueId,
                           nextQueueId := s.nextQueueId + 1, isAcquiring := false }
      | none => { s with isAcquiring := false }
    let tr1 := so.trace ++ [.enumSet "PixelFormat" fmt]
    if env.pixelFormatSet ≠ .Success then
      some ⟨env.pixelFormatSet, s1, tr1⟩
    else
      let afterPayload :=
        if (s1.frameBuffers.headD zeroVmbFrame).bufferSize < env.payloadSizeGet.2 ∨
            env.payloadSizeGet.1 ≠ .Success then
          let rv := revoke_and_free_buffers mode 0 s1.frameBuffers
          let al := alloc_and_announce_buffers env.allocEnv mode
            s1.filledFrameQueue rv.1
          (al.1, { s1 with frameBuffers := al.2.1 },
            tr1 ++ .payloadSizeGet :: (rv.2 ++ al.2.2))
        else
          (env.payloadSizeGet.1, s1, tr1 ++ [.payloadSizeGet])
      if afterPayload.1 = .Success then
        match start_image_acquisition env.startEnv
            afterPayload.2.1.frameBuffers.length afterPayload.2.1.isAcquiring with
        | none => none
        | some st =>
          some ⟨st.result,
            { afterPayload.2.1 with isAcquiring := st.isAcquiring },
            afterPayload.2.2 ++ st.trace⟩
      else
        some ⟨afterPayload.1, afterPayload.2.1, afterPayload.2.2⟩

/-- Every operation in a completion-polling trace is an `IsDone` query for
the polled feature. -/
theorem pollCommandDone_trace (feature : String) :
    ∀ (polls : List (VmbError × Bool)) (t : List DevOp),
      pollCommandDone feature polls = some t →
      ∀ op ∈ t, op = .commandIsDone feature := by
  intro polls
  induction polls with
  | nil => intro t ht; cases ht
  | cons p rest ih =>
    obtain ⟨e1, d1⟩ := p
    intro t ht op hop
    rw [pollCommandDone] at ht
    split at ht
    · simp only [Option.some.injEq] at ht
      subst ht; simpa using hop
    · split at ht
      · simp only [Option.some.injEq] at ht
        subst ht; simpa using hop
      · rw [Option.map_eq_some'] at ht
        obtain ⟨t', ht', rfl⟩ := ht
        rcases List.mem_cons.mp hop with h | h
        · exact h
        · exact ih t' ht' op h

/-- Every operation issued by `stop_image_acquisition` is one of the four
stop-side calls. -/
theorem stop_trace_ops (env : StopEnv) (b : Bool) (o : SessionOutcome)
    (ho : stop_image_acquisition env b = some o) :
    ∀ op ∈ o.trace, op = .commandRun "AcquisitionStop" ∨
      op = .commandIsDone "AcquisitionStop" ∨ op = .captureEnd ∨
      op = .captureQueueFlush := by
  intro op hop
  rw [stop_image_acquisition] at ho
  split at ho
  · cases ho
  · rename_i pt hp
    simp only [Option.some.injEq] at ho
    rw [← ho] at hop
    simp only at hop
    rcases List.mem_cons.mp hop with h | h
    · exact Or.inl h
    rcases List.mem_append.mp h with h | h
    · exact Or.inr (Or.inl (pollCommandDone_trace _ _ _ hp op h))
    · rcases List.mem_cons.mp h with h | h
      · exact Or.inr (Or.inr (Or.inl h))
      · simp only [List.mem_singleton] at h
        exact Or.inr (Or.inr (Or.inr h))

/-- Every operation in a frame-queueing trace is a `VmbCaptureFrameQueue`
call. -/
theorem queueFrames_trace (dev : Nat → VmbError) :
    ∀ (k i : Nat), ∀ op ∈ (queueFrames dev k i).2, ∃ j, op = DevOp.frameQueue j := by
  intro k
  induction k with
  | zero => intro i op hop; simp [queueFrames] at hop
  | succ k ih =>
    intro i op hop
    rw [queueFrames] at hop
    split at hop
    · simp only [List.mem_singleton] at hop
      exact ⟨i, hop⟩
    · rcases List.mem_cons.mp hop with h | h
      · exact ⟨i, h⟩
      · exact ih (i + 1) op h

/-- Every operation issued by `start_image_acquisition` is one of the four
start-side calls. -/
theorem start_trace_ops (env : StartEnv) (n : Nat) (b : Bool)
    (o : SessionOutcome) (ho : start_image_acquisition env n b = some o) :
    ∀ op ∈ o.trace, op = .captureStart ∨ (∃ i, op = .frameQueue i) ∨
      op = .commandRun "AcquisitionStart" ∨
      op = .commandIsDone "AcquisitionStart" := by
  intro op hop
  rw [start_image_acquisition] at ho
  split at ho
  · simp only [Option.some.injEq] at ho
    rw [← ho] at hop
    simp only [List.mem_singleton] at hop
    exact Or.inl hop
  · split at ho
    · simp only [Option.some.injEq] at ho
      rw [← ho] at hop
      simp only at hop
      rcases List.mem_cons.mp hop with h | h
      · exact Or.inl h
      · exact Or.inr (Or.inl (queueFrames_trace env.frameQueue n 0 op h))
    · split at ho
      · cases ho
      · rename_i pt hp
        simp only [Option.some.injEq] at ho
        rw [← ho] at hop
        simp only at hop
        rcases List.mem_cons.mp hop with h | h
        · exact Or.inl h
        rcases List.mem_append.mp h with h | h
        · exact Or.inr (Or.inl (queueFrames_trace env.frameQueue n 0 op h))
        · rcases List.mem_cons.mp h with h | h
          · exact Or.inr (Or.inr (Or.inl h))
          · exact Or.inr (Or.inr (Or.inr (pollCommandDone_trace _ _ _ hp op h)))

/-- Behaviour of the set-caps tail when the payload size is readable and fits
the previously allocated capacity: the pool is untouched, the queue object is
replaced by the fresh one, and the trace is stop, PixelFormat set, payload
read, restart. -/
theorem setCaps_no_realloc (env : SetCapsEnv) (mode : AllocationMode)
    (fmt : String) (s : SrcState) (q0 : Nat) (o : SetCapsOutcome)
    (hq : s.filledFrameQueue = some q0)
    (hpf : env.pixelFormatSet = .Success)
    (hps : env.payloadSizeGet.1 = .Success)
    (hle : env.payloadSizeGet.2 ≤ (s.frameBuffers.headD zeroVmbFrame).bufferSize)
    (ho : gst_vmbsrc_set_caps_tail env mode fmt s = some o) :
    o.state.frameBuffers = s.frameBuffers ∧
    o.state.filledFrameQueue = some s.nextQueueId ∧
    ∃ so st, stop_image_acquisition env.stopEnv s.isAcquiring = some so ∧
      start_image_acquisition env.startEnv s.frameBuffers.length false = some st ∧
      o.trace = so.trace ++ .enumSet "PixelFormat" fmt ::
        .payloadSizeGet :: st.trace := by
  rw [gst_vmbsrc_set_caps_tail] at ho
  rcases hstop : stop_image_acquisition env.stopEnv s.isAcquiring with _ | so
  · rw [hstop] at ho; cases ho
  rw [hstop] at ho
  simp only [hq, hpf, ne_eq, not_true_eq_false, ite_false, if_false] at ho
  have hcond : ¬((s.frameBuffers.headD zeroVmbFrame).bufferSize <
      env.payloadSizeGet.2 ∨ ¬env.payloadSizeGet.1 = VmbError.Success) := by
    push_neg
    exact ⟨hle, hps⟩
  rw [if_neg hcond] at ho
  simp only [hps, ite_true, if_true] at ho
  rcases hstart : start_image_acquisition env.startEnv s.frameBuffers.length false
      with _ | st
  · rw [hstart] at ho; cases ho
  · rw [hstart] at ho
    simp only [Option.some.injEq] at ho
    subst ho
    refine ⟨rfl, rfl, so, st, rfl, rfl, ?_⟩
    simp

/-- Behaviour of the set-caps tail when the payload size is unreadable or
exceeds the first descriptor's capacity: the pool is revoked and reallocated
against the fresh queue object, and the revoke/alloc operations sit between
the payload read and whatever restart trace may follow. -/
theorem setCaps_realloc (env : SetCapsEnv) (mode : AllocationMode)
    (fmt : String) (s : SrcState) (q0 : Nat) (o : SetCapsOutcome)
    (hq : s.filledFrameQueue = some q0)
    (hpf : env.pixelFormatSet = .Success)
    (hc : env.payloadSizeGet.1 ≠ .Success ∨
      (s.frameBuffers.headD zeroVmbFrame).bufferSize < env.payloadSizeGet.2)
    (ho : gst_vmbsrc_set_caps_tail env mode fmt s = some o) :
    o.state.frameBuffers =
      (alloc_and_announce_buffers env.allocEnv mode (some s.nextQueueId)
        ((revoke_and_free_buffers mode 0 s.frameBuffers).1)).2.1 ∧
    ∃ so tailTr, stop_image_acquisition env.stopEnv s.isAcquiring = some so ∧
      o.trace = so.trace ++ .enumSet "PixelFormat" fmt :: .payloadSizeGet ::
        (((revoke_and_free_buffers mode 0 s.frameBuffers).2 ++
          (alloc_and_announce_buffers env.allocEnv mode (some s.nextQueueId)
            ((revoke_and_free_buffers mode 0 s.frameBuffers).1)).2.2) ++ tailTr) ∧
      (tailTr = [] ∨ ∃ st, start_image_acquisition env.startEnv
          (alloc_and_announce_buffers env.allocEnv mode (some s.nextQueueId)
            ((revoke_and_free_buffers mode 0 s.frameBuffers).1)).2.1.length
          false = some st ∧ tailTr = st.trace) := by
  rw [gst_vmbsrc_set_caps_tail] at ho
  rcases hstop : stop_image_acquisition env.stopEnv s.isAcquiring with _ | so
  · rw [hstop] at ho; cases ho
  rw [hstop] at ho
  simp only [hq, hpf, ne_eq, not_true_eq_false, ite_false, if_false] at ho
  have hcond : ((s.frameBuffers.headD zeroVmbFrame).bufferSize <
      env.payloadSizeGet.2 ∨ ¬env.payloadSizeGet.1 = VmbError.Success) := hc.symm
  rw [if_pos hcond] at ho
  split at ho
  · rcases hstart : start_image_acquisition env.startEnv
        (alloc_and_announce_buffers env.allocEnv mode (some s.nextQueueId)
          ((revoke_and_free_buffers mode 0 s.frameBuffers).1)).2.1.length
        false with _ | st
    · rw [show start_image_acquisition env.startEnv
          (alloc_and_announce_buffers env.allocEnv mode (some s.nextQueueId)
            ((revoke_and_free_buffers mode 0 s.frameBuffers).1)).2.1.length
          false = none from hstart] at ho
      cases ho
    · rw [show start_image_acquisition env.startEnv
          (alloc_and_announce_buffers env.allocEnv mode (some s.nextQueueId)
            ((revoke_and_free_buffers mode 0 s.frameBuffers).1)).2.1.length
          false = some st from hstart] at ho
      simp only [Option.some.injEq] at ho
      subst ho
      refine ⟨rfl, so, st.trace, rfl, ?_, Or.inr ⟨st, rfl, rfl⟩⟩
      simp
  · simp only [Option.some.injEq] at ho
    subst ho
    refine ⟨rfl, so, [], rfl, ?_, Or.inl rfl⟩
    simp

/-! ## Claim C3: the reallocation trigger of `gst_vmbsrc_set_caps` -/

/-- C3.  After a successful `PixelFormat` set, the set-caps tail performs a
revoke-then-allocate cycle exactly when the newly read payload size exceeds
the first descriptor's previously allocated capacity or the payload size
cannot be read: when the size is readable and fits, the pool is left
untouched and the trace contains no revoke, announce or free; when it does
not fit (or is unreadable), the pool becomes the result of allocating over
the revoked pool and the revoke/alloc segment sits in the trace before any
acquisition-restart operation. -/
theorem gst_vmbsrc_set_caps_realloc_trigger (env : SetCapsEnv)
    (mode : AllocationMode) (fmt : String) (s : SrcState) (q0 : Nat)
    (o : SetCapsOutcome)
    (hq : s.filledFrameQueue = some q0)
    (hpf : env.pixelFormatSet = .Success)
    (ho : gst_vmbsrc_set_caps_tail env mode fmt s = some o) :
    ((env.payloadSizeGet.1 = .Success ∧
        env.payloadSizeGet.2 ≤ (s.frameBuffers.headD zeroVmbFrame).bufferSize) →
      o.state.frameBuffers = s.frameBuffers ∧
      ∀ op ∈ o.trace, ∀ i, op ≠ .frameRevoke i ∧ op ≠ .frameAnnounce i ∧
        op ≠ .freeBuf i) ∧
    ((env.payloadSizeGet.1 ≠ .Success ∨
        (s.frameBuffers.headD zeroVmbFrame).bufferSize < env.payloadSizeGet.2) →
      o.state.frameBuffers =
        (alloc_and_announce_buffers env.allocEnv mode (some s.nextQueueId)
          ((revoke_and_free_buffers mode 0 s.frameBuffers).1)).2.1 ∧
      ∃ pre post, o.trace = pre ++
          ((revoke_and_free_buffers mode 0 s.frameBuffers).2 ++
           (alloc_and_announce_buffers env.allocEnv mode (some s.nextQueueId)
             ((revoke_and_free_buffers mode 0 s.frameBuffers).1)).2.2) ++ post ∧
        ∀ op ∈ pre, op ≠ .commandRun "AcquisitionStart" ∧ op ≠ .captureStart) := by
  constructor
  · rintro ⟨hps, hle⟩
    obtain ⟨hfb, _, so, st, hstop, hstart, htr⟩ :=
      setCaps_no_realloc env mode fmt s q0 o hq hpf hps hle ho
    refine ⟨hfb, ?_⟩
    intro op hop i
    rw [htr] at hop
    rcases List.mem_append.mp hop with h | h
    · rcases stop_trace_ops env.stopEnv s.isAcquiring so hstop op h with
        h | h | h | h <;> subst h <;> exact ⟨by simp, by simp, by simp⟩
    · rcases List.mem_cons.mp h with h | h
      · subst h; exact ⟨by simp, by simp, by simp⟩
      rcases List.mem_cons.mp h with h | h
      · subst h; exact ⟨by simp, by simp, by simp⟩
      · rcases start_trace_ops env.startEnv s.frameBuffers.length false st
            hstart op h with h | ⟨j, h⟩ | h | h <;>
          subst h <;> exact ⟨by simp, by simp, by simp⟩
  · intro hc
    obtain ⟨hfb, so, tailTr, hstop, htr, _⟩ :=
      setCaps_realloc env mode fmt s q0 o hq hpf hc ho
    refine ⟨hfb, so.trace ++ [.enumSet "PixelFormat" fmt, .payloadSizeGet],
      tailTr, ?_, ?_⟩
    · rw [htr]; simp
    · intro op hop
      rcases List.mem_append.mp hop with h | h
      · rcases stop_trace_ops env.stopEnv s.isAcquiring so hstop op h with
          h | h | h | h <;> subst h <;> exact ⟨by decide, by decide⟩
      · rcases List.mem_cons.mp h with h | h
        · subst h; exact ⟨by simp, by simp⟩
        · simp only [List.mem_singleton] at h
          subst h; exact ⟨by decide, by decide⟩

/-- A concrete element state for the set-caps path: queue object 1 live,
next fresh queue id 2, one announced self-allocated descriptor of capacity
100 routed to queue 1, acquisition running. -/
def setCapsStateA : SrcState := ⟨some 1, 2, [⟨some 5, 100, some 1⟩], true⟩

/-- A concrete set-caps device: everything succeeds and the new payload size
80 fits the existing capacity 100. -/
def setCapsEnvA : SetCapsEnv :=
  ⟨allGoodStopEnv, .Success, (.Success, 80),
    ⟨(.Success, 80), fun _ => some 9, fun _ => .Success⟩, allGoodStartEnv⟩

/-- C3 (witness).  On the concrete state and device (payload readable, 80 ≤
capacity 100) the set-caps tail completes and leaves the pool untouched. -/
theorem gst_vmbsrc_set_caps_realloc_trigger_witness :
    ∃ o, gst_vmbsrc_set_caps_tail setCapsEnvA .AnnounceFrame "Mono8"
        setCapsStateA = some o ∧
      o.state.frameBuffers = setCapsStateA.frameBuffers := by
  rcases ho : gst_vmbsrc_set_caps_tail setCapsEnvA .AnnounceFrame "Mono8"
      setCapsStateA with _ | o
  · exact absurd ho (by decide)
  · exact ⟨o, rfl,
      ((gst_vmbsrc_set_caps_realloc_trigger setCapsEnvA .AnnounceFrame "Mono8"
        setCapsStateA 1 o rfl rfl ho).1 ⟨rfl, by decide⟩).1⟩

/-! ## Claim C10: callback routing target is fixed at announce time -/

/-- If the allocation/announce loop succeeds, every descriptor it produced
has its `context[0]` set to the queue that was current at announce time. -/
theorem alloc_loop_success_context (env : AllocEnv) (mode : AllocationMode)
    (queue : Option Nat) (payload : Nat) :
    ∀ (i : Nat) (frames : List VmbFrameModel),
      (alloc_and_announce_loop env mode queue payload i frames).1 = .Success →
      ∀ f ∈ (alloc_and_announce_loop env mode queue payload i frames).2.1,
        f.context0 = queue := by
  intro i frames
  induction frames generalizing i with
  | nil => intro _ f hf; simp [alloc_and_announce_loop] at hf
  | cons g rest ih =>
    intro hres f hf
    cases mode with
    | AnnounceFrame =>
      rcases ha : env.alignedAlloc i with _ | tok
      · rw [alloc_and_announce_loop] at hres
        simp [ha] at hres
      · rw [alloc_and_announce_loop] at hres hf
        simp only [ha] at hres hf
        split at hres
        · simp only at hres
          rename_i hann
          exact absurd hres hann
        · rename_i hann
          rw [if_neg hann] at hf
          simp only at hres hf
          rcases List.mem_cons.mp hf with h | h
          · subst h; rfl
          · exact ih (i + 1) hres f h
    | AllocAndAnnounceFrame =>
      rw [alloc_and_announce_loop] at hres hf
      split at hres
      · simp only at hres
        rename_i hann
        exact absurd hres hann
      · rename_i hann
        rw [if_neg hann] at hf
        simp only at hres hf
        rcases List.mem_cons.mp hf with h | h
        · subst h; rfl
        · exact ih (i + 1) hres f h

/-- If `alloc_and_announce_buffers` succeeds, every descriptor's `context[0]`
is the queue passed at announce time. -/
theorem alloc_and_announce_success_context (env : AllocEnv)
    (mode : AllocationMode) (queue : Option Nat) (frames : List VmbFrameModel)
    (h : (alloc_and_announce_buffers env mode queue frames).1 = .Success) :
    ∀ f ∈ (alloc_and_announce_buffers env mode queue frames).2.1,
      f.context0 = queue := by
  intro f hf
  rw [alloc_and_announce_buffers] at h hf
  split at h
  · rename_i hp
    simp only at h
    exact absurd h hp
  · rename_i hp
    rw [if_neg hp] at hf
    simp only at h hf
    exact alloc_loop_success_context env mode queue env.payloadSizeGet.2
      0 frames h f hf

/-- C10.  Descriptors get their callback routing target (`context[0]`) fixed
at announce time to the then-current `filled_frame_queue` (first conjunct:
whenever `alloc_and_announce_buffers` succeeds).  Consequently, when
`gst_vmbsrc_set_caps` replaces the queue object without reallocating (payload
readable and fitting), `vimbax_frame_callback` still pushes every completed
frame into the old queue object, which is not the new queue object that
`gst_vmbsrc_create` subsequently drains (`filled_frame_queue` of the
resulting state). -/
theorem set_caps_stale_callback_target (env : SetCapsEnv)
    (mode : AllocationMode) (fmt : String) (s : SrcState) (q0 : Nat)
    (o : SetCapsOutcome)
    (hq : s.filledFrameQueue = some q0)
    (hfresh : s.nextQueueId ≠ q0)
    (hctx : ∀ f ∈ s.frameBuffers, f.context0 = some q0)
    (hpf : env.pixelFormatSet = .Success)
    (hps : env.payloadSizeGet.1 = .Success)
    (hle : env.payloadSizeGet.2 ≤ (s.frameBuffers.headD zeroVmbFrame).bufferSize)
    (ho : gst_vmbsrc_set_caps_tail env mode fmt s = some o) :
    (∀ (aenv : AllocEnv) (queue : Option Nat) (frames : List VmbFrameModel),
      (alloc_and_announce_buffers aenv mode queue frames).1 = .Success →
      ∀ f ∈ (alloc_and_announce_buffers aenv mode queue frames).2.1,
        vimbax_frame_callback f = queue) ∧
    o.state.filledFrameQueue = some s.nextQueueId ∧
    (∀ f ∈ o.state.frameBuffers,
      vimbax_frame_callback f = some q0 ∧
      vimbax_frame_callback f ≠ o.state.filledFrameQueue) := by
  obtain ⟨hfb, hqueue, _⟩ := setCaps_no_realloc env mode fmt s q0 o hq hpf hps hle ho
  refine ⟨fun aenv queue frames h f hf =>
    alloc_and_announce_success_context aenv mode queue frames h f hf, hqueue, ?_⟩
  intro f hf
  rw [hfb] at hf
  have hc := hctx f hf
  refine ⟨hc, ?_⟩
  show f.context0 ≠ o.state.filledFrameQueue
  rw [hc, hqueue]
  simp only [ne_eq, Option.some.injEq]
  exact fun h => hfresh h.symm

/-- C10 (witness).  On the concrete state (descriptors routed to queue 1,
fresh queue 2) and the all-success no-realloc device, the callback target of
every descriptor is the old queue 1 and differs from the new queue the
dispatcher drains. -/
theorem set_caps_stale_callback_target_witness :
    ∃ o, gst_vmbsrc_set_caps_tail setCapsEnvA .AnnounceFrame "Mono8"
        setCapsStateA = some o ∧
      o.state.filledFrameQueue = some setCapsStateA.nextQueueId ∧
      (∀ f ∈ o.state.frameBuffers,
        vimbax_frame_callback f = some 1 ∧
        vimbax_frame_callback f ≠ o.state.filledFrameQueue) := by
  rcases ho : gst_vmbsrc_set_caps_tail setCapsEnvA .AnnounceFrame "Mono8"
      setCapsStateA with _ | o
  · exact absurd ho (by decide)
  · have h := set_caps_stale_callback_target setCapsEnvA .AnnounceFrame "Mono8"
      setCapsStateA 1 o rfl (by decide) (by decide) rfl rfl (by decide) ho
    exact ⟨o, rfl, h.2.1, h.2.2⟩

/-! ## The ROI sequencer: `set_roi` (lines 1594-1776) -/

/-- `INT_MAX`, the "auto / full sensor" default of the width and height
properties. -/
def INT_MAX : Int := 2147483647

/-- The ROI-related element properties read and written by `set_roi`;
offsetx/offsety use -1 as the "auto"/centering sentinel. -/
structure RoiProps where
  width : Int
  height : Int
  offsetx : Int
  offsety : Int
deriving DecidableEq, Repr

/-- Device behaviour consumed by `set_roi`: the integer feature sets, the
max values reported by the Width/Height range queries (the value field
models whatever ends up in the output variable, also when the query fails),
and the min/max and increment reported for OffsetX/OffsetY. -/
structure RoiEnv where
  intSet : String → Int → VmbError
  widthMax : VmbError × Int
  heightMax : VmbError × Int
  offsetxRange : VmbError × Int × Int
  offsetxInc : VmbError × Int
  offsetyRange : VmbError × Int × Int
  offsetyInc : VmbError × Int

/-- The arithmetic right shift by one used for centering
(`(vmb_width - width) >> 1`): floor division by 2. -/
def shiftRightOne (x : Int) : Int := Int.fdiv x 2

/-- Modelled from the spec: `RoundToNearestValidValue` is declared in a
helper header that is not among the repository sources (only its call sites
are).  The spec describes it as rounding the raw value to the nearest valid
value respecting the device-reported min/max/increment: clamp into
[vmin, vmax], then move to the nearest multiple of `inc` counted from `vmin`
that stays within range. -/
def RoundToNearestValidValue (value vmin vmax inc : Int) : Int :=
  let clamped := max vmin (min vmax value)
  if inc ≤ 0 then clamped
  else
    let r := (clamped - vmin) % inc
    let down := clamped - r
    if 2 * r ≤ inc ∨ vmax < down + inc then down else down + inc

/-- `set_roi` (lines 1594-1776): reset OffsetX/OffsetY to 0, query the Width
range and set Width (full sensor if the property is INT_MAX), likewise
Height, then resolve OffsetX (centering `(sensorWidth - width) >> 1` rounded
to the nearest valid value when the property is -1 and both the range and
increment queries succeed, the raw value when a query fails) and set it,
likewise OffsetY.  Returns the final `result` (the OffsetY set, line 1775),
the updated properties and the trace of integer feature sets. -/
def set_roi (env : RoiEnv) (props : RoiProps) :
    VmbError × RoiProps × List DevOp :=
  let w : Int := if props.width = INT_MAX then env.widthMax.2 else props.width
  let h : Int := if props.height = INT_MAX then env.heightMax.2 else props.height
  let ox : Int :=
    if props.offsetx = -1 then
      if env.offsetxRange.1 = .Success ∧ env.offsetxInc.1 = .Success then
        RoundToNearestValidValue (shiftRightOne (env.widthMax.2 - w))
          env.offsetxRange.2.1 env.offsetxRange.2.2 env.offsetxInc.2
      else shiftRightOne (env.widthMax.2 - w)
    else props.offsetx
  let oy : Int :=
    if props.offsety = -1 then
      if env.offsetyRange.1 = .Success ∧ env.offsetyInc.1 = .Success then
        RoundToNearestValidValue (shiftRightOne (env.heightMax.2 - h))
          env.offsetyRange.2.1 env.offsetyRange.2.2 env.offsetyInc.2
      else shiftRightOne (env.heightMax.2 - h)
    else props.offsety
  (env.intSet "OffsetY" oy, ⟨w, h, ox, oy⟩,
   [.intSet "OffsetX" 0, .intSet "OffsetY" 0, .intSet "Width" w,
    .intSet "Height" h, .intSet "OffsetX" ox, .intSet "OffsetY" oy])

/-! ## Claim C6: auto-centering of OffsetX -/

/-- C6.  When the offsetx property holds the "auto" sentinel -1 and the
OffsetX range and increment queries succeed, `set_roi` resolves OffsetX to
`floor((sensorWidth - resolvedWidth) / 2)` rounded to the nearest valid
value for the device-reported min/max/increment, stores it in the property
and issues the device set with exactly that value (the fifth integer set of
the call, after the offset resets and Width/Height). -/
theorem set_roi_offsetx_auto (env : RoiEnv) (props : RoiProps)
    (hauto : props.offsetx = -1)
    (hrange : env.offsetxRange.1 = .Success)
    (hinc : env.offsetxInc.1 = .Success) :
    (set_roi env props).2.1.offsetx =
      RoundToNearestValidValue
        (shiftRightOne (env.widthMax.2 -
          (if props.width = INT_MAX then env.widthMax.2 else props.width)))
        env.offsetxRange.2.1 env.offsetxRange.2.2 env.offsetxInc.2 ∧
    (set_roi env props).2.2.get? 4 =
      some (.intSet "OffsetX"
        (RoundToNearestValidValue
          (shiftRightOne (env.widthMax.2 -
            (if props.width = INT_MAX then env.widthMax.2 else props.width)))
          env.offsetxRange.2.1 env.offsetxRange.2.2 env.offsetxInc.2)) := by
  constructor <;> simp [set_roi, hauto, hrange, hinc]

/-- The spec's concrete centering scenario: sensor width 1920, requested
width 640, OffsetX range [0, 1280], increment 2, offsetx "auto". -/
def roiEnvA : RoiEnv :=
  ⟨fun _ _ => .Success, (.Success, 1920), (.Success, 1080),
   (.Success, 0, 1280), (.Success, 2), (.Success, 0, 800), (.Success, 2)⟩

/-- ROI properties requesting a centered 640-wide window. -/
def roiPropsA : RoiProps := ⟨640, 480, -1, 0⟩

/-- C6 (witness).  Sensor width 1920, resolved width 640, increment 2 yields
OffsetX 640, both in the stored property and in the issued device set. -/
theorem set_roi_offsetx_auto_witness :
    (set_roi roiEnvA roiPropsA).2.1.offsetx = 640 ∧
    (set_roi roiEnvA roiPropsA).2.2.get? 4 = some (.intSet "OffsetX" 640) := by
  have h := set_roi_offsetx_auto roiEnvA roiPropsA rfl rfl rfl
  have e : RoundToNearestValidValue
      (shiftRightOne (roiEnvA.widthMax.2 -
        (if roiPropsA.width = INT_MAX then roiEnvA.widthMax.2 else roiPropsA.width)))
      roiEnvA.offsetxRange.2.1 roiEnvA.offsetxRange.2.2 roiEnvA.offsetxInc.2 =
      640 := by decide
  exact ⟨h.1.trans e, by rw [h.2, e]⟩

end GstVmbSrc
